import Mathlib

/-!
Shallow embedding of the connector/synchronization core of the Unleash
python SDK (`UnleashClient`), covering:

* the fire-once ready callback (`core/client.py` and
  `asynchronous/__init__.py`: `build_ready_callback`);
* the streaming event processor (`streaming/event_processor.py`);
* the streaming connector's per-event loop body (`streaming/connector.py`);
* the conditional fetchers (`api/sync_api.py: get_feature_toggles`,
  `api/sync_api.py: register_client_async`,
  `api/async_api.py: get_feature_toggles_async`);
* the fetch-and-apply cycles
  (`periodic_tasks/asynchronous/fetch_and_load.py`,
  `periodic_tasks/fetch_and_apply_delta.py`, `asynchronous/loader.py`);
* the orchestrator lifecycle (`asynchronous/__init__.py:
  AsyncUnleashClient.initialize_client / destroy`);
* the evaluation passthroughs (`core/client.py: Evaluator.is_enabled /
  get_variant`).

Modelling conventions: python dicts used as caches become association
lists; the evaluation engine is an external collaborator, tracked
extensionally as the ordered list of payloads successfully passed to
`take_state`; python exceptions become `Except` or explicit outcome
parameters; `None` becomes `Option`; the network is abstracted as the
outcome of each HTTP request.
-/

namespace Unleash

/-! ## Cache model

`AsyncFileCache` (`asynchronous/cache.py`) maps string keys to values; we
model the store as an association list with last-write-wins `set` and
`get`-with-default, mirroring dict update semantics. -/

/-- A cache is a list of key/value bindings; `cacheSet` overwrites. -/
def Cache := List (String × String)

instance : DecidableEq Cache := by
  unfold Cache
  infer_instance

instance : Repr Cache := by
  unfold Cache
  infer_instance

/-- `cache.set(key, value)` (`asynchronous/cache.py` line 136). -/
def cacheSet (c : Cache) (k v : String) : Cache :=
  match c with
  | [] => [(k, v)]
  | (k', v') :: rest =>
      if k' = k then (k, v) :: rest else (k', v') :: cacheSet rest k v

/-- `cache.get(key, default)` (`asynchronous/cache.py` line 144). -/
def cacheGet (c : Cache) (k : String) (d : String) : String :=
  match c with
  | [] => d
  | (k', v') :: rest => if k' = k then v' else cacheGet rest k d

/-- The `ETAG` cache key, imported from `constants.py` (that module is not
under `src/`; only the key's identity matters to the claims). -/
def ETAG : String := "etag"

/-- The `FEATURES_URL` cache key / request path from `constants.py` (not
under `src/`; only its identity as a key distinct from `ETAG` matters). -/
def FEATURES_URL : String := "/api/client/features"

/-- The `METRIC_LAST_SENT_TIME` cache key from `constants.py` (not under
`src/`; only its identity matters). -/
def METRIC_LAST_SENT_TIME : String := "mlst"

/-! ## Ready callback (`build_ready_callback`)

`core/client.py` lines 43-71 (and the async twin in
`asynchronous/__init__.py` lines 66-94) build a closure over a boolean
latch `already_fired`; the closure delivers one `UnleashReadyEvent` to the
user's `event_callback` and every later invocation returns immediately.
We model the closure state as the latch plus the number of READY events
delivered to the user callback. -/

/-- The mutable state captured by the `ready_callback` closure: the
`already_fired` latch and how many READY events have reached the user's
`event_callback`. -/
structure ReadyCbState where
  already_fired : Bool
  delivered : Nat
  deriving DecidableEq, Repr

/-- Fresh closure state right after `build_ready_callback` runs
(`already_fired = False`, no event delivered yet). -/
def readyCbInit : ReadyCbState := { already_fired := false, delivered := 0 }

/-- One invocation of `ready_callback` (`core/client.py` lines 55-69):
if the latch is set, return; otherwise set the latch and deliver the
event. -/
def ready_callback (s : ReadyCbState) : ReadyCbState :=
  if s.already_fired then s
  else { already_fired := true, delivered := s.delivered + 1 }

/-- `n` successive readiness signals hitting the callback. -/
def readySignals (n : Nat) (s : ReadyCbState) : ReadyCbState :=
  match n with
  | 0 => s
  | n + 1 => readySignals n (ready_callback s)

/-! ## Streaming event processor (`streaming/event_processor.py`)

`StreamingEventProcessor` holds an engine handle, a lock and a `_hydrated`
boolean.  We track the engine extensionally as the ordered list of
payloads passed to `take_state`, plus the flag.  An SSE event has optional
`event` (type) and `data` (payload) attributes; python truthiness makes
both `None` and the empty string falsy. -/

/-- An SSE event as consumed by `StreamingEventProcessor.process`:
`getattr(event, "event", None)` and `getattr(event, "data", None)`. -/
structure SSEEvent where
  event : Option String
  data : Option String
  deriving DecidableEq, Repr

/-- Observable state of a `StreamingEventProcessor`: the `_hydrated` flag
and the payloads handed to `engine.take_state`, in call order. -/
structure ProcessorState where
  hydrated : Bool
  takeStateCalls : List String
  deriving DecidableEq, Repr

/-- State right after `StreamingEventProcessor.__init__`. -/
def processorInit : ProcessorState := { hydrated := false, takeStateCalls := [] }

namespace StreamingEventProcessor

/-- `_apply_delta` (`event_processor.py` lines 48-52): returns early when
`event_data` is falsy (`None` or `""`), otherwise applies it to the engine
under the lock. -/
def apply_delta (event_data : Option String) (s : ProcessorState) :
    ProcessorState :=
  match event_data with
  | none => s
  | some payload =>
      if payload = "" then s
      else { s with takeStateCalls := s.takeStateCalls ++ [payload] }

/-- `_handle_connected` (`event_processor.py` lines 54-58): applies the
event's data, then sets `_hydrated` if it was not yet set. -/
def handle_connected (e : SSEEvent) (s : ProcessorState) : ProcessorState :=
  let s' := apply_delta e.data s
  if s'.hydrated then s' else { s' with hydrated := true }

/-- `_handle_updated` (`event_processor.py` lines 60-61). -/
def handle_updated (e : SSEEvent) (s : ProcessorState) : ProcessorState :=
  apply_delta e.data s

/-- `process` (`event_processor.py` lines 29-46): dispatch on the event
type; falsy or unrecognized types leave the state alone. -/
def process (s : ProcessorState) (e : SSEEvent) : ProcessorState :=
  match e.event with
  | none => s
  | some etype =>
      if etype = "" then s
      else if etype = "unleash-connected" then handle_connected e s
      else if etype = "unleash-updated" then handle_updated e s
      else s

/-- A whole stream of events, processed in arrival order. -/
def processAll (s : ProcessorState) (es : List SSEEvent) : ProcessorState :=
  es.foldl process s

end StreamingEventProcessor

namespace StreamingConnector

/-- One iteration of `StreamingConnector._run`'s event loop
(`streaming/connector.py` lines 99-111), with the stop flag clear: skip
falsy event types, hand the event to the processor, then invoke
`_on_ready` (exceptions from it are swallowed) when the event type is
`unleash-connected` and the processor reports hydrated.  We count
`_on_ready` invocations. -/
def loop_body (s : ProcessorState) (readyInvocations : Nat) (e : SSEEvent) :
    ProcessorState × Nat :=
  match e.event with
  | none => (s, readyInvocations)
  | some etype =>
      if etype = "" then (s, readyInvocations)
      else
        let s' := StreamingEventProcessor.process s e
        if etype = "unleash-connected" ∧ s'.hydrated = true then
          (s', readyInvocations + 1)
        else (s', readyInvocations)

end StreamingConnector

/-! ## Fetchers (`api/sync_api.py`, `api/async_api.py`)

A single HTTP exchange is abstracted by its outcome.  For the sync
fetcher the urllib3 `Retry(total=request_retries,
status_forcelist=[500, 502, 504])` adapter retries transparently inside
`session.get`, so one `RequestOutcome` stands for the whole exchange:
`netError` covers `requests.RequestException`, including the
`MaxRetryError` raised when that budget is exhausted; `invalidUrl` covers
`MissingSchema`/`InvalidSchema`/`InvalidHeader`/`InvalidURL`, raised
before anything is sent.  For the async fetcher the retry loop is
explicit in the source, so there `RequestOutcome` stands for one attempt. -/

/-- Outcome of one HTTP GET/POST as seen by the calling python code. -/
inductive RequestOutcome where
  | resp (status : Nat) (body : String) (etagHeader : Option String)
  | invalidUrl
  | netError
  deriving DecidableEq, Repr

namespace sync_api

/-- The body of the `try` in `get_feature_toggles` (`api/sync_api.py`
lines 169-217): non-200/304 statuses raise, 304 yields `(None, etag)`,
200 yields `(body, etag)`; `invalidUrl`/`netError` are exceptions raised
by `requests`. -/
def get_feature_toggles_attempt (o : RequestOutcome) :
    Except String (Option String × String) :=
  match o with
  | .invalidUrl => .error "InvalidURL"
  | .netError => .error "RequestException"
  | .resp status body etagHeader =>
      if status = 200 ∨ status = 304 then
        let etag := etagHeader.getD ""
        if status = 304 then .ok (none, etag) else .ok (some body, etag)
      else .error "Unleash Client feature fetch failed!"

/-- `get_feature_toggles` (`api/sync_api.py` lines 140-223): the blanket
`except Exception` turns every raised error, the invalid-URL family
included, into a logged `(None, "")`. -/
def get_feature_toggles (o : RequestOutcome) : Option String × String :=
  match get_feature_toggles_attempt o with
  | .ok r => r
  | .error _ => (none, "")

/-- `register_client_async` (`api/sync_api.py` lines 20-84): 200/202 is
success, other statuses log and return `False`,
`MissingSchema`/`InvalidSchema`/`InvalidHeader`/`InvalidURL` are re-raised
as fatal, and any other `requests.RequestException` is swallowed into
`False`. -/
def register_client_async (o : RequestOutcome) : Except String Bool :=
  match o with
  | .invalidUrl => .error "InvalidURL"
  | .netError => .ok false
  | .resp status _ _ =>
      if status = 200 ∨ status = 202 then .ok true else .ok false

/-- The body of the `try` in `get_feature_deltas` (`api/delta.py` lines
26-65), structurally identical to the full-fetch attempt. -/
def get_feature_deltas_attempt (o : RequestOutcome) :
    Except String (Option String × String) :=
  match o with
  | .invalidUrl => .error "InvalidURL"
  | .netError => .error "RequestException"
  | .resp status body etagHeader =>
      if status = 200 ∨ status = 304 then
        let etag := etagHeader.getD ""
        if status = 304 then .ok (none, etag) else .ok (some body, etag)
      else .error "Unleash Client delta fetch failed!"

/-- `get_feature_deltas` (`api/delta.py` lines 11-69). -/
def get_feature_deltas (o : RequestOutcome) : Option String × String :=
  match get_feature_deltas_attempt o with
  | .ok r => r
  | .error _ => (none, "")

end sync_api

namespace async_api

/-- `_TRANSIENT_ERROR_CODES` (`api/async_api.py` line 11). -/
def TRANSIENT_ERROR_CODES : List Nat := [500, 502, 504]

/-- `get_feature_toggles_async` (`api/async_api.py` lines 119-195):
`attempt` ranges over `range(request_retries + 1)`.  A 304 returns
`(None, etag)` and a 200 returns `(body, etag)` immediately; a transient
status (500/502/504) with budget left sleeps and retries; any other
status raises into the outer `except`, producing `(None, "")`; an
`aiohttp.ClientError` (which includes `aiohttp.InvalidURL`) retries while
budget remains and otherwise yields `(None, "")`.  `responses i` is the
outcome of attempt `i`. -/
def get_feature_toggles_async (responses : Nat → RequestOutcome)
    (request_retries : Nat) (attempt : Nat) : Option String × String :=
  match responses attempt with
  | .resp status body etagHeader =>
      let etag := etagHeader.getD ""
      if status = 304 then (none, etag)
      else if status = 200 then (some body, etag)
      else if status ∈ TRANSIENT_ERROR_CODES then
        if h : attempt < request_retries then
          get_feature_toggles_async responses request_retries (attempt + 1)
        else (none, "")
      else (none, "")
  | .invalidUrl =>
      if h : attempt < request_retries then
        get_feature_toggles_async responses request_retries (attempt + 1)
      else (none, "")
  | .netError =>
      if h : attempt < request_retries then
        get_feature_toggles_async responses request_retries (attempt + 1)
      else (none, "")
termination_by request_retries + 1 - attempt
decreasing_by all_goals omega

/-- An attempt outcome that the async fetch loop treats as transient: a
response whose status sits in `_TRANSIENT_ERROR_CODES`. -/
def isTransientResp (o : RequestOutcome) : Prop :=
  ∃ s b e, o = RequestOutcome.resp s b e ∧ s ∈ TRANSIENT_ERROR_CODES

end async_api

/-! ## Polling fetch-and-load cycle
(`periodic_tasks/asynchronous/fetch_and_load.py`, `asynchronous/loader.py`)

The cycle state is the cache plus the engine's `take_state` call list. -/

/-- Cache plus engine, as touched by one polling fetch cycle. -/
structure CycleState where
  cache : Cache
  takeStateCalls : List String
  deriving DecidableEq, Repr

/-- `load_features` (`asynchronous/loader.py` lines 10-29): persist the
payload under `FEATURES_URL` when `updated` and truthy, then persist a
truthy etag under `ETAG`. -/
def load_features (s : CycleState) (feature_toggles : String) (etag : String)
    (updated : Bool) : CycleState :=
  let s1 :=
    if updated ∧ feature_toggles ≠ "" then
      { s with cache := cacheSet s.cache FEATURES_URL feature_toggles }
    else s
  if etag ≠ "" then { s1 with cache := cacheSet s1.cache ETAG etag } else s1

/-- `fetch_and_load_features` (`periodic_tasks/asynchronous/fetch_and_load.py`
lines 12-62), applied to the fetcher's `(feature_toggles, etag)` result: a
truthy payload goes to `engine.take_state` and then to the cache with the
etag; otherwise a truthy etag alone refreshes the `ETAG` key; otherwise
nothing happens. -/
def fetch_and_load_features (fetchResult : Option String × String)
    (s : CycleState) : CycleState :=
  match fetchResult with
  | (feature_toggles, etag) =>
      match feature_toggles with
      | some ft =>
          if ft ≠ "" then
            load_features
              { s with takeStateCalls := s.takeStateCalls ++ [ft] } ft etag true
          else if etag ≠ "" then load_features s "" etag false
          else s
      | none =>
          if etag ≠ "" then load_features s "" etag false
          else s

/-! ## Delta fetch-and-apply cycle (`periodic_tasks/fetch_and_apply_delta.py`) -/

/-- The marker `'"type":"hydration"'` searched for in the delta payload
(`fetch_and_apply_delta.py` line 60). -/
def HYDRATION_MARKER : String := "\"type\":\"hydration\""

/-- Python's `needle in hay` substring test, on character lists. -/
def containsMarker (hay needle : List Char) : Bool :=
  match hay with
  | [] => needle.isEmpty
  | _ :: t => needle.isPrefixOf hay || containsMarker t needle

/-- `'"type":"hydration"' in delta_payload`. -/
def containsHydration (p : String) : Bool :=
  containsMarker p.toList HYDRATION_MARKER.toList

/-- State touched by one delta cycle: cache, engine call list, and how
many FETCHED events / readiness signals were emitted. -/
structure DeltaCycleState where
  cache : Cache
  takeStateCalls : List String
  fetchedEvents : Nat
  readySignalsSent : Nat
  deriving DecidableEq, Repr

/-- `fetch_and_apply_delta` (`periodic_tasks/fetch_and_apply_delta.py`
lines 13-63), applied to the `(delta_payload, etag)` the delta fetch
returned.  A truthy etag is persisted first; a falsy payload ends the
cycle there; otherwise `engine.take_state(delta_payload)` runs inside a
`try` — `take_state_ok` says whether it raises — and on success the
FETCHED event fires and, when the payload carries a hydration marker, the
ready callback is signalled; a raise is caught and logged, skipping both.
-/
def fetch_and_apply_delta (fetchResult : Option String × String)
    (take_state_ok : String → Bool)
    (has_event_callback has_ready_callback : Bool)
    (s : DeltaCycleState) : DeltaCycleState :=
  match fetchResult with
  | (delta_payload, etag) =>
      let s1 :=
        if etag ≠ "" then { s with cache := cacheSet s.cache ETAG etag } else s
      match delta_payload with
      | none => s1
      | some p =>
          if p = "" then s1
          else if take_state_ok p then
            let s2 := { s1 with takeStateCalls := s1.takeStateCalls ++ [p] }
            let s3 :=
              if has_event_callback then
                { s2 with fetchedEvents := s2.fetchedEvents + 1 }
              else s2
            if has_ready_callback ∧ containsHydration p then
              { s3 with readySignalsSent := s3.readySignalsSent + 1 }
            else s3
          else s1

/-! ## Evaluation passthrough (`core/client.py: Evaluator`)

The engine is external: its answers for one evaluation call are inputs.
The user event callback may raise; `emit_impression` is the body of the
`try` that wraps its invocation. -/

/-- A normalized evaluation context (contents opaque to these claims). -/
def Context := List (String × String)

/-- A variant as returned by the engine, with the fields the client reads
(`_resolve_variant` drops `None` fields; the ones accessed are always
present on engine variants and on the disabled fallback). -/
structure Variant where
  name : String
  enabled : Bool
  feature_enabled : Bool
  deriving DecidableEq, Repr

/-- Modelled from the spec: `DISABLED_VARIATION` lives in `constants.py`,
which is not under `src/`; the spec calls it "a canonical \"disabled\"
variant", disabled and with the feature reported off. -/
def DISABLED_VARIATION : Variant :=
  { name := "disabled", enabled := false, feature_enabled := false }

/-- The engine's answers for a single evaluation call:
`engine.is_enabled` may return `None` (unknown), `engine.get_variant` may
return no variant, and `should_emit_impression_event` gates the event. -/
structure EngineEval where
  is_enabled_result : Option Bool
  variant_result : Option Variant
  should_emit_impression : Bool
  deriving DecidableEq, Repr

namespace Evaluator

/-- `Evaluator._get_fallback_value` (`core/client.py` lines 90-99). -/
def get_fallback_value (fallback_function : Option (String → Context → Bool))
    (feature_name : String) (context : Context) : Bool :=
  match fallback_function with
  | some f => f feature_name context
  | none => false

/-- The user event callback invocation guarded inside the `try` of
`is_enabled`/`get_variant`: it runs only when a callback is registered
and the engine wants an impression event, and it may raise. -/
def emit_impression (has_callback should_emit callback_raises : Bool) :
    Except String Unit :=
  if has_callback ∧ should_emit then
    if callback_raises then .error "callback raised" else .ok ()
  else .ok ()

/-- `Evaluator.is_enabled` (`core/client.py` lines 105-141): a `None`
engine answer falls back to the fallback function (default `False`);
`count_toggle` is an engine-side counter; the impression event is emitted
inside a `try` whose `except` logs and continues, so the answer is
returned either way. -/
def is_enabled (eng : EngineEval)
    (fallback_function : Option (String → Context → Bool))
    (has_callback callback_raises : Bool)
    (feature_name : String) (context : Context) : Except String Bool :=
  let feature_enabled :=
    match eng.is_enabled_result with
    | some b => b
    | none => get_fallback_value fallback_function feature_name context
  match emit_impression has_callback eng.should_emit_impression
      callback_raises with
  | .ok _ => .ok feature_enabled
  | .error _ => .ok feature_enabled

/-- `Evaluator._resolve_variant` (`core/client.py` lines 226-233). -/
def resolve_variant (eng : EngineEval) : Option Variant :=
  eng.variant_result

/-- `Evaluator.get_variant` (`core/client.py` lines 144-181): a missing
variant becomes `DISABLED_VARIATION`; `count_variant`/`count_toggle` are
engine-side counters; the impression event is emitted inside a `try`
whose `except` logs and continues, so the variant is returned either
way. -/
def get_variant (eng : EngineEval) (has_callback callback_raises : Bool)
    (_feature_name : String) (_context : Context) : Except String Variant :=
  let variant :=
    match resolve_variant eng with
    | some v => v
    | none => DISABLED_VARIATION
  match emit_impression has_callback eng.should_emit_impression
      callback_raises with
  | .ok _ => .ok variant
  | .error _ => .ok variant

end Evaluator

/-! ## Orchestrator lifecycle (`asynchronous/__init__.py: AsyncUnleashClient`) -/

/-- `_RunState` (`asynchronous/__init__.py` lines 56-59, an `IntEnum`). -/
inductive RunState where
  | UNINITIALIZED
  | INITIALIZED
  | SHUTDOWN
  deriving DecidableEq, Repr

/-- The `IntEnum` values behind `_RunState`. -/
def RunState.toNat : RunState → Nat
  | .UNINITIALIZED => 0
  | .INITIALIZED => 1
  | .SHUTDOWN => 2

/-- Observable orchestrator state: the `_closed` event, `_run_state`, the
cache, how many registrations were sent, whether the periodic fetch and
metrics tasks exist, the ready-callback latch, and whether the cache was
torn down. -/
structure ClientState where
  closed : Bool
  run_state : RunState
  cache : Cache
  registrations : Nat
  fetch_task : Bool
  metrics_task : Bool
  ready_cb : ReadyCbState
  cacheDestroyed : Bool
  deriving DecidableEq, Repr

/-- Result of `initialize_client`: the state afterwards, whether the
idempotency warning was emitted, and the exception re-raised (if any). -/
structure InitResult where
  state : ClientState
  warned : Bool
  raised : Option String
  deriving DecidableEq, Repr

/-- `AsyncUnleashClient.initialize_client` (`asynchronous/__init__.py`
lines 221-305).  Guard: if `_closed` is set or `_run_state >
UNINITIALIZED`, warn and return untouched.  Otherwise: `mset` the metrics
timestamp and a fresh empty etag, fire the ready callback when
bootstrapped or the cache hydrated the engine, register
(`register_outcome` is the outcome of the `register_client` call, which —
like `api/async_api.py: register_client_async` — re-raises on invalid
configuration and returns `False` on other failures; its module is not
under `src/`), start the fetch and metrics tasks as configured, and move
to INITIALIZED.  An exception along the way is logged and re-raised with
the side effects so far kept and `_run_state` untouched. -/
def initialize_client (s : ClientState) (fetch_toggles : Bool)
    (now : String) (bootstrapped_or_cached has_ready_callback : Bool)
    (disable_registration : Bool) (register_outcome : Except String Bool)
    (disable_metrics : Bool) : InitResult :=
  if s.closed = true ∨ s.run_state.toNat > RunState.UNINITIALIZED.toNat then
    { state := s, warned := true, raised := none }
  else
    let s1 := { s with
      cache := cacheSet (cacheSet s.cache METRIC_LAST_SENT_TIME now) ETAG "" }
    let s2 :=
      if bootstrapped_or_cached ∧ has_ready_callback then
        { s1 with ready_cb := ready_callback s1.ready_cb }
      else s1
    if disable_registration then
      let s4 := if fetch_toggles then { s2 with fetch_task := true } else s2
      let s5 :=
        if disable_metrics then s4 else { s4 with metrics_task := true }
      { state := { s5 with run_state := RunState.INITIALIZED },
        warned := false, raised := none }
    else
      match register_outcome with
      | .error e =>
          { state := { s2 with registrations := s2.registrations + 1 },
            warned := false, raised := some e }
      | .ok _ =>
          let s3 := { s2 with registrations := s2.registrations + 1 }
          let s4 := if fetch_toggles then { s3 with fetch_task := true } else s3
          let s5 :=
            if disable_metrics then s4 else { s4 with metrics_task := true }
          { state := { s5 with run_state := RunState.INITIALIZED },
            warned := false, raised := none }

/-- `AsyncUnleashClient.destroy` (`asynchronous/__init__.py` lines
399-420): no-op when `_closed` is already set; otherwise set `_closed`,
move to SHUTDOWN, await the background tasks via
`asyncio.gather(..., return_exceptions=True)` (task failures are
collected, never raised), then tear the cache down inside a `try` whose
`except` only logs — `cache_destroy_ok` says whether `cache.destroy()`
raised. -/
def destroy (s : ClientState) (cache_destroy_ok : Bool) : ClientState :=
  if s.closed then s
  else
    let s1 := { s with closed := true, run_state := RunState.SHUTDOWN }
    let s2 := { s1 with fetch_task := false, metrics_task := false }
    if cache_destroy_ok then { s2 with cacheDestroyed := true } else s2

/-! ## Lemmas -/

theorem cacheGet_cacheSet_self (c : Cache) (k v d : String) :
    cacheGet (cacheSet c k v) k d = v := by
  induction c with
  | nil => simp [cacheSet, cacheGet]
  | cons hd tl ih =>
      obtain ⟨k', v'⟩ := hd
      by_cases h : k' = k <;> simp [cacheSet, cacheGet, h, ih]

theorem cacheGet_cacheSet_other (c : Cache) (k k' v d : String) (h : k' ≠ k) :
    cacheGet (cacheSet c k v) k' d = cacheGet c k' d := by
  induction c with
  | nil =>
      simp only [cacheSet, cacheGet]
      rw [if_neg (fun hk => h hk.symm)]
  | cons hd tl ih =>
      obtain ⟨k₀, v₀⟩ := hd
      by_cases h0 : k₀ = k
      · subst h0
        simp [cacheSet, cacheGet, Ne.symm h]
      · by_cases h1 : k₀ = k'
        · subst h1
          simp [cacheSet, cacheGet, h0]
        · simp [cacheSet, cacheGet, h0, h1, ih]

theorem readySignals_fired (n : Nat) (s : ReadyCbState)
    (h : s.already_fired = true) : readySignals n s = s := by
  induction n with
  | zero => rfl
  | succ n ih => simp [readySignals, ready_callback, h, ih]

theorem apply_delta_hydrated (d : Option String) (s : ProcessorState) :
    (StreamingEventProcessor.apply_delta d s).hydrated = s.hydrated := by
  cases d with
  | none => rfl
  | some payload =>
      by_cases h : payload = "" <;>
        simp [StreamingEventProcessor.apply_delta, h]

theorem process_hydrated_mono (s : ProcessorState) (e : SSEEvent)
    (h : s.hydrated = true) :
    (StreamingEventProcessor.process s e).hydrated = true := by
  cases he : e.event with
  | none => simpa [StreamingEventProcessor.process, he] using h
  | some etype =>
      by_cases h0 : etype = ""
      · simpa [StreamingEventProcessor.process, he, h0] using h
      · by_cases h1 : etype = "unleash-connected"
        · simp only [StreamingEventProcessor.process, he]
          rw [if_neg h0, if_pos h1]
          unfold StreamingEventProcessor.handle_connected
          have hh : (StreamingEventProcessor.apply_delta e.data s).hydrated
              = true := by
            rw [apply_delta_hydrated]; exact h
          simp [hh]
        · by_cases h2 : etype = "unleash-updated"
          · simp only [StreamingEventProcessor.process, he]
            rw [if_neg h0, if_neg h1, if_pos h2,
              StreamingEventProcessor.handle_updated, apply_delta_hydrated]
            exact h
          · simpa [StreamingEventProcessor.process, he, h0, h1, h2] using h

theorem processAll_hydrated_mono (es : List SSEEvent) (s : ProcessorState)
    (h : s.hydrated = true) :
    (StreamingEventProcessor.processAll s es).hydrated = true := by
  induction es generalizing s with
  | nil => exact h
  | cons e es ih =>
      exact ih (StreamingEventProcessor.process s e)
        (process_hydrated_mono s e h)

theorem process_hydrated_source (s : ProcessorState) (e : SSEEvent)
    (h : (StreamingEventProcessor.process s e).hydrated = true) :
    s.hydrated = true ∨ e.event = some "unleash-connected" := by
  cases he : e.event with
  | none => left; simpa [StreamingEventProcessor.process, he] using h
  | some etype =>
      by_cases h0 : etype = ""
      · left; simpa [StreamingEventProcessor.process, he, h0] using h
      · by_cases h1 : etype = "unleash-connected"
        · right; exact congrArg some h1
        · by_cases h2 : etype = "unleash-updated"
          · left
            have hthis := h
            simp only [StreamingEventProcessor.process, he] at hthis
            rw [if_neg h0, if_neg h1, if_pos h2,
              StreamingEventProcessor.handle_updated,
              apply_delta_hydrated] at hthis
            exact hthis
          · left
            simpa [StreamingEventProcessor.process, he, h0, h1, h2] using h

/-- A 304 response makes the sync fetcher return no payload and the
response's etag token. -/
theorem get_feature_toggles_304 (body : String) (etagHeader : Option String) :
    sync_api.get_feature_toggles
        (RequestOutcome.resp 304 body etagHeader) =
      (none, etagHeader.getD "") := by
  unfold sync_api.get_feature_toggles sync_api.get_feature_toggles_attempt
  norm_num

/-- A 200 at attempt `attempt` returns the body and token. -/
theorem gfta_200 (responses : Nat → RequestOutcome) (retries attempt : Nat)
    (body : String) (etagHeader : Option String)
    (hr : responses attempt = RequestOutcome.resp 200 body etagHeader) :
    async_api.get_feature_toggles_async responses retries attempt =
      (some body, etagHeader.getD "") := by
  unfold async_api.get_feature_toggles_async
  rw [hr]
  norm_num

/-- A 304 at attempt `attempt` returns `(none, token)`. -/
theorem gfta_304 (responses : Nat → RequestOutcome) (retries attempt : Nat)
    (body : String) (etagHeader : Option String)
    (hr : responses attempt = RequestOutcome.resp 304 body etagHeader) :
    async_api.get_feature_toggles_async responses retries attempt =
      (none, etagHeader.getD "") := by
  unfold async_api.get_feature_toggles_async
  rw [hr]
  norm_num

/-- A transient status with retry budget left moves to the next attempt. -/
theorem gfta_transient_step (responses : Nat → RequestOutcome)
    (retries attempt status : Nat) (b : String) (e : Option String)
    (hr : responses attempt = RequestOutcome.resp status b e)
    (hs : status ∈ async_api.TRANSIENT_ERROR_CODES)
    (hlt : attempt < retries) :
    async_api.get_feature_toggles_async responses retries attempt =
      async_api.get_feature_toggles_async responses retries (attempt + 1) := by
  conv_lhs => unfold async_api.get_feature_toggles_async
  rw [hr]
  simp only [async_api.TRANSIENT_ERROR_CODES, List.mem_cons,
    List.mem_singleton, List.not_mem_nil, or_false] at hs
  rcases hs with rfl | rfl | rfl <;> norm_num [hlt] <;>
    simp [async_api.TRANSIENT_ERROR_CODES]

/-- A transient status with the budget exhausted fails the cycle. -/
theorem gfta_transient_exhaust (responses : Nat → RequestOutcome)
    (retries attempt status : Nat) (b : String) (e : Option String)
    (hr : responses attempt = RequestOutcome.resp status b e)
    (hs : status ∈ async_api.TRANSIENT_ERROR_CODES)
    (hge : ¬attempt < retries) :
    async_api.get_feature_toggles_async responses retries attempt =
      (none, "") := by
  unfold async_api.get_feature_toggles_async
  rw [hr]
  simp only [async_api.TRANSIENT_ERROR_CODES, List.mem_cons,
    List.mem_singleton, List.not_mem_nil, or_false] at hs
  rcases hs with rfl | rfl | rfl <;> norm_num [hge]

/-- Any other non-200/304 status fails the cycle without retrying. -/
theorem gfta_nontransient (responses : Nat → RequestOutcome)
    (retries attempt status : Nat) (b : String) (e : Option String)
    (hr : responses attempt = RequestOutcome.resp status b e)
    (h200 : status ≠ 200) (h304 : status ≠ 304)
    (hs : status ∉ async_api.TRANSIENT_ERROR_CODES) :
    async_api.get_feature_toggles_async responses retries attempt =
      (none, "") := by
  unfold async_api.get_feature_toggles_async
  rw [hr]
  simp [h200, h304, hs]

/-- Reaching a 200 after `k` transient attempts, within the budget,
yields its payload and token. -/
theorem gfta_reach_200 (responses : Nat → RequestOutcome) (retries : Nat)
    (body : String) (etagHeader : Option String) :
    ∀ k attempt, attempt + k ≤ retries →
    (∀ i, i < k → async_api.isTransientResp (responses (attempt + i))) →
    responses (attempt + k) = RequestOutcome.resp 200 body etagHeader →
    async_api.get_feature_toggles_async responses retries attempt =
      (some body, etagHeader.getD "") := by
  intro k
  induction k with
  | zero =>
      intro attempt _ _ h200
      exact gfta_200 responses retries attempt body etagHeader h200
  | succ k ih =>
      intro attempt hle htrans h200
      obtain ⟨st, b, e, hr, hs⟩ := htrans 0 (Nat.succ_pos k)
      rw [Nat.add_zero] at hr
      rw [gfta_transient_step responses retries attempt st b e hr hs
        (by omega)]
      refine ih (attempt + 1) (by omega) ?_ ?_
      · intro i hi
        have h := htrans (i + 1) (by omega)
        have heq : attempt + (i + 1) = attempt + 1 + i := by omega
        rwa [heq] at h
      · have heq : attempt + (k + 1) = attempt + 1 + k := by omega
        rwa [heq] at h200

/-- When every attempt in the remaining budget is transient, the fetch
fails the cycle. -/
theorem gfta_exhaust (responses : Nat → RequestOutcome) (retries : Nat) :
    ∀ d attempt, retries = attempt + d →
    (∀ i, attempt ≤ i → i ≤ retries →
      async_api.isTransientResp (responses i)) →
    async_api.get_feature_toggles_async responses retries attempt =
      (none, "") := by
  intro d
  induction d with
  | zero =>
      intro attempt hd htrans
      obtain ⟨st, b, e, hr, hs⟩ := htrans attempt le_rfl (by omega)
      exact gfta_transient_exhaust responses retries attempt st b e hr hs
        (by omega)
  | succ d ih =>
      intro attempt hd htrans
      obtain ⟨st, b, e, hr, hs⟩ := htrans attempt le_rfl (by omega)
      rw [gfta_transient_step responses retries attempt st b e hr hs
        (by omega)]
      exact ih (attempt + 1) (by omega) (fun i h1 h2 => htrans i (by omega) h2)

/-! ## Claims -/

/-- A cycle fed no payload only refreshes the `ETAG` key, and only when
the token is truthy. -/
theorem fetch_and_load_features_none (e : String) (s : CycleState) :
    fetch_and_load_features (none, e) s =
      if e ≠ "" then { s with cache := cacheSet s.cache ETAG e } else s := by
  by_cases he : e = "" <;> simp [fetch_and_load_features, load_features, he]

/-- C3: a fetch cycle whose server response is 304 gets no payload from
the fetcher, leaves the engine exactly as it was (`take_state` is not
called), modifies no cache key other than `ETAG`, and stores the
response's token under `ETAG` when the response carried one. -/
theorem C3_304_cycle_frame (body : String) (etagHeader : Option String)
    (s : CycleState) (d : String) :
    (sync_api.get_feature_toggles
        (RequestOutcome.resp 304 body etagHeader)).1 = none
    ∧ (fetch_and_load_features
        (sync_api.get_feature_toggles (RequestOutcome.resp 304 body etagHeader))
        s).takeStateCalls = s.takeStateCalls
    ∧ (∀ k, k ≠ ETAG →
        cacheGet (fetch_and_load_features
          (sync_api.get_feature_toggles
            (RequestOutcome.resp 304 body etagHeader)) s).cache k d =
        cacheGet s.cache k d)
    ∧ (∀ t, etagHeader = some t → t ≠ "" →
        cacheGet (fetch_and_load_features
          (sync_api.get_feature_toggles
            (RequestOutcome.resp 304 body etagHeader)) s).cache ETAG d = t) := by
  rw [get_feature_toggles_304, fetch_and_load_features_none]
  refine ⟨rfl, ?_, ?_, ?_⟩
  · by_cases he : etagHeader.getD "" = "" <;> simp [he]
  · intro k hk
    by_cases he : etagHeader.getD "" = ""
    · simp [he]
    · simp [he, cacheGet_cacheSet_other s.cache ETAG k _ d hk]
  · intro t ht hne
    rw [ht]
    simp only [Option.getD_some]
    simp [hne, cacheGet_cacheSet_self]

/-- Witness for C3 at a concrete cache, engine and 304 response. -/
theorem C3_304_cycle_frame_witness :
    (sync_api.get_feature_toggles
        (RequestOutcome.resp 304 "" (some "W9"))).1 = none
    ∧ (fetch_and_load_features
        (sync_api.get_feature_toggles (RequestOutcome.resp 304 "" (some "W9")))
        { cache := [("k", "v")], takeStateCalls := ["p"] }).takeStateCalls
      = ["p"]
    ∧ cacheGet (fetch_and_load_features
        (sync_api.get_feature_toggles (RequestOutcome.resp 304 "" (some "W9")))
        { cache := [("k", "v")], takeStateCalls := ["p"] }).cache "k" ""
      = cacheGet [("k", "v")] "k" ""
    ∧ cacheGet (fetch_and_load_features
        (sync_api.get_feature_toggles (RequestOutcome.resp 304 "" (some "W9")))
        { cache := [("k", "v")], takeStateCalls := ["p"] }).cache ETAG ""
      = "W9" :=
  ⟨(C3_304_cycle_frame "" (some "W9")
      { cache := [("k", "v")], takeStateCalls := ["p"] } "").1,
   (C3_304_cycle_frame "" (some "W9")
      { cache := [("k", "v")], takeStateCalls := ["p"] } "").2.1,
   (C3_304_cycle_frame "" (some "W9")
      { cache := [("k", "v")], takeStateCalls := ["p"] } "").2.2.1 "k"
      (by decide),
   (C3_304_cycle_frame "" (some "W9")
      { cache := [("k", "v")], takeStateCalls := ["p"] } "").2.2.2 "W9" rfl
      (by decide)⟩

/-- C4 counterexample: on a malformed-URL request the fetch's `try` body
raises (`requests` raises `InvalidURL` before sending), but
`get_feature_toggles` swallows the exception and returns `(None, "")` to
its caller — the fetch operation does not propagate the error. -/
theorem C4_counterexample_fetch_swallows :
    sync_api.get_feature_toggles_attempt RequestOutcome.invalidUrl =
      Except.error "InvalidURL"
    ∧ sync_api.get_feature_toggles RequestOutcome.invalidUrl = (none, "") :=
  ⟨rfl, rfl⟩

/-- C4 (amended): malformed-target errors propagate out of client
registration, not out of the fetch.  `get_feature_toggles` turns every
raised error — invalid URL included — into `(None, "")`, while
`register_client_async` re-raises invalid configuration and suppresses
transient failures, and `initialize()` raises because the registration
error is re-raised before the fetch or metrics task is created, leaving
RunState untouched. -/
theorem C4_registration_propagates_invalid_url :
    (∀ (o : RequestOutcome) (e : String),
      sync_api.get_feature_toggles_attempt o = Except.error e →
      sync_api.get_feature_toggles o = (none, ""))
    ∧ sync_api.register_client_async RequestOutcome.invalidUrl =
        Except.error "InvalidURL"
    ∧ sync_api.register_client_async RequestOutcome.netError = Except.ok false
    ∧ (∀ (s : ClientState) (ft : Bool) (now : String) (boc hrc dmet : Bool)
        (e : String),
       s.closed = false → s.run_state = RunState.UNINITIALIZED →
       (initialize_client s ft now boc hrc false (Except.error e)
          dmet).raised = some e
       ∧ (initialize_client s ft now boc hrc false (Except.error e)
            dmet).state.fetch_task = s.fetch_task
       ∧ (initialize_client s ft now boc hrc false (Except.error e)
            dmet).state.metrics_task = s.metrics_task
       ∧ (initialize_client s ft now boc hrc false (Except.error e)
            dmet).state.run_state = s.run_state) := by
  refine ⟨?_, rfl, rfl, ?_⟩
  · intro o e h
    unfold sync_api.get_feature_toggles
    rw [h]
  · intro s ft now boc hrc dmet e hc hr
    unfold initialize_client
    rw [hc, hr]
    by_cases hb : (boc : Prop) ∧ (hrc : Prop) <;>
      simp [RunState.toNat, hb]

/-- Witness for C4's amended claim at a concrete uninitialized client. -/
theorem C4_registration_propagates_invalid_url_witness :
    sync_api.get_feature_toggles RequestOutcome.invalidUrl = (none, "")
    ∧ (initialize_client
        { closed := false, run_state := RunState.UNINITIALIZED, cache := [],
          registrations := 0, fetch_task := false, metrics_task := false,
          ready_cb := { already_fired := false, delivered := 0 },
          cacheDestroyed := false }
        true "t0" false true false (Except.error "InvalidURL")
        false).raised = some "InvalidURL"
    ∧ (initialize_client
        { closed := false, run_state := RunState.UNINITIALIZED, cache := [],
          registrations := 0, fetch_task := false, metrics_task := false,
          ready_cb := { already_fired := false, delivered := 0 },
          cacheDestroyed := false }
        true "t0" false true false (Except.error "InvalidURL")
        false).state.fetch_task = false :=
  ⟨C4_registration_propagates_invalid_url.1 RequestOutcome.invalidUrl
      "InvalidURL" rfl,
   (C4_registration_propagates_invalid_url.2.2.2 _ true "t0" false true false
      "InvalidURL" rfl rfl).1,
   (C4_registration_propagates_invalid_url.2.2.2 _ true "t0" false true false
      "InvalidURL" rfl rfl).2.1⟩

/-- C5: transient statuses (500/502/504) are retried up to the configured
budget and a 200 within it yields its payload and token; any other
non-200/304 status, or an exhausted budget, makes the fetch log and
return `(None, "")`, and a cycle fed `(None, "")` leaves cache and engine
untouched. -/
theorem C5_retry_budget (responses : Nat → RequestOutcome)
    (retries k : Nat) (body : String) (etagHeader : Option String)
    (s : CycleState) :
    (k ≤ retries →
      (∀ i, i < k → async_api.isTransientResp (responses i)) →
      responses k = RequestOutcome.resp 200 body etagHeader →
      async_api.get_feature_toggles_async responses retries 0 =
        (some body, etagHeader.getD ""))
    ∧ ((∀ i, i ≤ retries → async_api.isTransientResp (responses i)) →
      async_api.get_feature_toggles_async responses retries 0 = (none, ""))
    ∧ (∀ status b e, responses 0 = RequestOutcome.resp status b e →
        status ≠ 200 → status ≠ 304 →
        status ∉ async_api.TRANSIENT_ERROR_CODES →
        async_api.get_feature_toggles_async responses retries 0 = (none, ""))
    ∧ fetch_and_load_features (none, "") s = s := by
  refine ⟨?_, ?_, ?_, ?_⟩
  · intro hk htrans h200
    exact gfta_reach_200 responses retries body etagHeader k 0 (by omega)
      (fun i hi => by simpa using htrans i hi) (by simpa using h200)
  · intro htrans
    exact gfta_exhaust responses retries retries 0 (by omega)
      (fun i _ h2 => htrans i h2)
  · intro status b e hr h200 h304 hs
    exact gfta_nontransient responses retries 0 status b e hr h200 h304 hs
  · simp [fetch_and_load_features_none]

/-- Witness for C5: two transient statuses then a 200 inside a budget of
3 yield the 200's payload; an all-500 run with budget 2 fails. -/
theorem C5_retry_budget_witness :
    async_api.get_feature_toggles_async
        (fun i => if i = 0 then RequestOutcome.resp 500 "" none
          else if i = 1 then RequestOutcome.resp 502 "" none
          else RequestOutcome.resp 200 "body" (some "W1")) 3 0 =
      (some "body", "W1")
    ∧ async_api.get_feature_toggles_async
        (fun _ => RequestOutcome.resp 500 "x" none) 2 0 = (none, "") := by
  constructor
  · exact (C5_retry_budget _ 3 2 "body" (some "W1")
      { cache := [], takeStateCalls := [] }).1 (by omega)
      (fun i hi => match i, hi with
        | 0, _ => ⟨500, "", none, rfl, by decide⟩
        | 1, _ => ⟨502, "", none, rfl, by decide⟩
        | n + 2, h => absurd h (by omega))
      rfl
  · exact (C5_retry_budget _ 2 0 "" none
      { cache := [], takeStateCalls := [] }).2.1
      (fun i _ => ⟨500, "x", none, rfl, by decide⟩)

/-- C9: in `fetch_and_apply_delta` a truthy etag is persisted before the
payload reaches the engine, so when `engine.take_state` raises on the
payload the cycle ends with the stored conditional token already advanced
to the new etag while the engine state — and the FETCHED/ready
notifications — are unchanged. -/
theorem C9_etag_advances_on_failed_apply (p etag : String)
    (take_state_ok : String → Bool) (hec hrc : Bool) (s : DeltaCycleState)
    (hp : p ≠ "") (he : etag ≠ "") (hfail : take_state_ok p = false) :
    fetch_and_apply_delta (some p, etag) take_state_ok hec hrc s =
      { s with cache := cacheSet s.cache ETAG etag } := by
  simp [fetch_and_apply_delta, hp, he, hfail]

/-- Witness for C9 at a concrete payload the engine rejects. -/
theorem C9_etag_advances_on_failed_apply_witness :
    fetch_and_apply_delta (some "bad", "W2") (fun _ => false) true true
        { cache := [], takeStateCalls := [], fetchedEvents := 0,
          readySignalsSent := 0 } =
      { cache := [(ETAG, "W2")], takeStateCalls := [], fetchedEvents := 0,
        readySignalsSent := 0 } := by
  rw [C9_etag_advances_on_failed_apply "bad" "W2" (fun _ => false) true true
      _ (by decide) (by decide) rfl]
  rfl

/-- C1: for every client instance, the callback built by
`build_ready_callback` delivers at most one READY event to the user's
event callback across every sequence of readiness signals: the first
invocation fires the event and sets the latch, and every later invocation
returns without calling the user callback again. -/
theorem C1_ready_callback_fires_once (n : Nat) :
    (readySignals n readyCbInit).delivered ≤ 1
    ∧ (1 ≤ n → readySignals n readyCbInit =
        { already_fired := true, delivered := 1 })
    ∧ (∀ s : ReadyCbState, s.already_fired = true → ready_callback s = s) := by
  have hlatch : ∀ s : ReadyCbState, s.already_fired = true →
      ready_callback s = s := by
    intro s h
    simp [ready_callback, h]
  refine ⟨?_, ?_, hlatch⟩
  · cases n with
    | zero => simp [readySignals, readyCbInit]
    | succ n =>
        have : readySignals (n + 1) readyCbInit =
            { already_fired := true, delivered := 1 } := by
          show readySignals n (ready_callback readyCbInit) = _
          rw [show ready_callback readyCbInit =
            { already_fired := true, delivered := 1 } from rfl]
          exact readySignals_fired n _ rfl
        rw [this]
  · intro hn
    cases n with
    | zero => omega
    | succ n =>
        show readySignals n (ready_callback readyCbInit) = _
        rw [show ready_callback readyCbInit =
          { already_fired := true, delivered := 1 } from rfl]
        exact readySignals_fired n _ rfl

/-- Witness for C1 at five readiness signals. -/
theorem C1_ready_callback_fires_once_witness :
    (readySignals 5 readyCbInit).delivered ≤ 1
    ∧ readySignals 5 readyCbInit = { already_fired := true, delivered := 1 }
    ∧ ready_callback { already_fired := true, delivered := 1 } =
        { already_fired := true, delivered := 1 } :=
  ⟨(C1_ready_callback_fires_once 5).1,
   (C1_ready_callback_fires_once 5).2.1 (by decide),
   (C1_ready_callback_fires_once 5).2.2 _ rfl⟩

/-- C6: across every event sequence, a `StreamingEventProcessor`'s
hydrated flag moves at most once from false to true, only on an
`unleash-connected` event, and is never reset; later `unleash-connected`
events still apply their payload to the engine but do not change the
flag again; unknown event types change nothing. -/
theorem C6_hydration_latch :
    (∀ (s : ProcessorState) (es : List SSEEvent), s.hydrated = true →
      (StreamingEventProcessor.processAll s es).hydrated = true)
    ∧ (∀ (s : ProcessorState) (e : SSEEvent),
        (StreamingEventProcessor.process s e).hydrated = true →
        s.hydrated = true ∨ e.event = some "unleash-connected")
    ∧ (∀ (s : ProcessorState) (e : SSEEvent) (d : String),
        s.hydrated = true → e.event = some "unleash-connected" →
        e.data = some d → d ≠ "" →
        (StreamingEventProcessor.process s e).hydrated = true ∧
        (StreamingEventProcessor.process s e).takeStateCalls =
          s.takeStateCalls ++ [d])
    ∧ (∀ (s : ProcessorState) (e : SSEEvent) (t : String),
        e.event = some t → t ≠ "unleash-connected" → t ≠ "unleash-updated" →
        StreamingEventProcessor.process s e = s) := by
  refine ⟨fun s es h => processAll_hydrated_mono es s h,
    fun s e h => process_hydrated_source s e h, ?_, ?_⟩
  · intro s e d hs he hd hne
    constructor
    · exact process_hydrated_mono s e hs
    · simp [StreamingEventProcessor.process, he,
        StreamingEventProcessor.handle_connected,
        StreamingEventProcessor.apply_delta, hd, hne, hs]
  · intro s e t he h1 h2
    by_cases h0 : t = ""
    · simp [StreamingEventProcessor.process, he, h0]
    · simp [StreamingEventProcessor.process, he, h0, h1, h2]

/-- Witness for C6 at a concrete already-hydrated state and payloadful
repeat `unleash-connected` event, plus an unknown event type. -/
theorem C6_hydration_latch_witness :
    ((StreamingEventProcessor.process
        { hydrated := true, takeStateCalls := ["a"] }
        { event := some "unleash-connected", data := some "b" }).hydrated = true
     ∧ (StreamingEventProcessor.process
        { hydrated := true, takeStateCalls := ["a"] }
        { event := some "unleash-connected", data := some "b" }).takeStateCalls
        = ["a"] ++ ["b"])
    ∧ StreamingEventProcessor.process
        { hydrated := true, takeStateCalls := ["a"] }
        { event := some "mystery", data := some "b" } =
      { hydrated := true, takeStateCalls := ["a"] } :=
  ⟨C6_hydration_latch.2.2.1 _ _ "b" rfl rfl rfl (by decide),
   C6_hydration_latch.2.2.2 _ _ "mystery" rfl (by decide) (by decide)⟩

/-- `is_enabled` always answers `.ok`, with the engine's verdict when
present and the fallback value otherwise. -/
theorem is_enabled_ok (eng : EngineEval)
    (fb : Option (String → Context → Bool)) (hc cr : Bool)
    (name : String) (ctx : Context) :
    Evaluator.is_enabled eng fb hc cr name ctx =
      .ok (eng.is_enabled_result.getD
        (Evaluator.get_fallback_value fb name ctx)) := by
  cases he : Evaluator.emit_impression hc eng.should_emit_impression cr with
  | ok u =>
      cases hr : eng.is_enabled_result <;>
        simp [Evaluator.is_enabled, he, hr]
  | error e =>
      cases hr : eng.is_enabled_result <;>
        simp [Evaluator.is_enabled, he, hr]

/-- `get_variant` always answers `.ok`, with the engine's variant when
present and the canonical disabled variant otherwise. -/
theorem get_variant_ok (eng : EngineEval) (hc cr : Bool)
    (name : String) (ctx : Context) :
    Evaluator.get_variant eng hc cr name ctx =
      .ok (eng.variant_result.getD DISABLED_VARIATION) := by
  cases he : Evaluator.emit_impression hc eng.should_emit_impression cr with
  | ok u =>
      cases hr : eng.variant_result <;>
        simp [Evaluator.get_variant, Evaluator.resolve_variant, he, hr]
  | error e =>
      cases hr : eng.variant_result <;>
        simp [Evaluator.get_variant, Evaluator.resolve_variant, he, hr]

/-- C2: for every feature name, context, fallback function and
engine/callback behavior (engine answering `None`, callback raising),
`is_enabled` and `get_variant` never raise: a `None` engine answer yields
the fallback function's value (default `false`) for `is_enabled` and the
canonical disabled variant for `get_variant`, while callback exceptions
are caught. -/
theorem C2_evaluation_never_raises :
    (∀ (eng : EngineEval) (fb : Option (String → Context → Bool))
        (hc cr : Bool) (name : String) (ctx : Context),
      ∃ b, Evaluator.is_enabled eng fb hc cr name ctx = .ok b)
    ∧ (∀ (eng : EngineEval) (fb : Option (String → Context → Bool))
        (hc cr : Bool) (name : String) (ctx : Context),
      eng.is_enabled_result = none →
        Evaluator.is_enabled eng fb hc cr name ctx =
          .ok (Evaluator.get_fallback_value fb name ctx))
    ∧ (∀ (name : String) (ctx : Context),
        Evaluator.get_fallback_value none name ctx = false)
    ∧ (∀ (eng : EngineEval) (hc cr : Bool) (name : String) (ctx : Context),
      ∃ v, Evaluator.get_variant eng hc cr name ctx = .ok v)
    ∧ (∀ (eng : EngineEval) (hc cr : Bool) (name : String) (ctx : Context),
      eng.variant_result = none →
        Evaluator.get_variant eng hc cr name ctx = .ok DISABLED_VARIATION) := by
  refine ⟨?_, ?_, ?_, ?_, ?_⟩
  · intro eng fb hc cr name ctx
    exact ⟨_, is_enabled_ok eng fb hc cr name ctx⟩
  · intro eng fb hc cr name ctx h
    rw [is_enabled_ok, h]
    rfl
  · intro name ctx
    rfl
  · intro eng hc cr name ctx
    exact ⟨_, get_variant_ok eng hc cr name ctx⟩
  · intro eng hc cr name ctx h
    rw [get_variant_ok, h]
    rfl

/-- Witness for C2: an engine with no answers and a raising callback
still yields `.ok false` and the disabled variant. -/
theorem C2_evaluation_never_raises_witness :
    Evaluator.is_enabled
        { is_enabled_result := none, variant_result := none,
          should_emit_impression := true }
        none true true "f" [] = .ok false
    ∧ Evaluator.get_variant
        { is_enabled_result := none, variant_result := none,
          should_emit_impression := true }
        true true "f" [] = .ok DISABLED_VARIATION :=
  ⟨C2_evaluation_never_raises.2.1 _ none true true "f" [] rfl,
   C2_evaluation_never_raises.2.2.2.2 _ true true "f" [] rfl⟩

/-- C7: calling `initialize_client` while the client is INITIALIZED or
SHUTDOWN warns and returns with no side effects: the whole client state —
RunState, cache, registrations, background tasks — is unchanged. -/
theorem C7_initialize_guard (s : ClientState) (ft : Bool) (now : String)
    (boc hrc dreg : Bool) (ro : Except String Bool) (dmet : Bool)
    (h : s.run_state = RunState.INITIALIZED ∨
      s.run_state = RunState.SHUTDOWN) :
    initialize_client s ft now boc hrc dreg ro dmet =
      { state := s, warned := true, raised := none } := by
  unfold initialize_client
  rcases h with h | h <;> rw [h] <;> simp [RunState.toNat]

/-- Witness for C7 at a concrete initialized client. -/
theorem C7_initialize_guard_witness :
    initialize_client
      { closed := false, run_state := RunState.INITIALIZED, cache := [],
        registrations := 1, fetch_task := true, metrics_task := true,
        ready_cb := { already_fired := true, delivered := 1 },
        cacheDestroyed := false }
      true "t0" false true false (Except.ok true) false =
    { state :=
        { closed := false, run_state := RunState.INITIALIZED, cache := [],
          registrations := 1, fetch_task := true, metrics_task := true,
          ready_cb := { already_fired := true, delivered := 1 },
          cacheDestroyed := false },
      warned := true, raised := none } :=
  C7_initialize_guard _ true "t0" false true false (Except.ok true) false
    (Or.inl rfl)

/-- `destroy` always leaves the `_closed` flag set. -/
theorem destroy_closed (s : ClientState) (ok : Bool) :
    (destroy s ok).closed = true := by
  by_cases h : s.closed = true
  · simp [destroy, h]
  · cases ok <;> simp [destroy, h]

/-- C8: `destroy` is idempotent and never raises: a second call after
shutdown is a no-op, the run state ends at SHUTDOWN, and a failure while
tearing down the cache changes neither the closed flag nor the final run
state. -/
theorem C8_destroy_idempotent (s : ClientState) (ok1 ok2 : Bool) :
    (destroy s ok1).closed = true
    ∧ destroy (destroy s ok1) ok2 = destroy s ok1
    ∧ (s.closed = false → (destroy s ok1).run_state = RunState.SHUTDOWN)
    ∧ (destroy s false).closed = (destroy s true).closed
    ∧ (destroy s false).run_state = (destroy s true).run_state := by
  refine ⟨destroy_closed s ok1, ?_, ?_, ?_, ?_⟩
  · have h := destroy_closed s ok1
    generalize hd : destroy s ok1 = t at h ⊢
    simp [destroy, h]
  · intro h
    cases ok1 <;> simp [destroy, h]
  · by_cases h : s.closed = true <;> simp [destroy, h]
  · by_cases h : s.closed = true <;> simp [destroy, h]

/-- Witness for C8 at a concrete live client. -/
theorem C8_destroy_idempotent_witness :
    (destroy
        { closed := false, run_state := RunState.INITIALIZED, cache := [],
          registrations := 1, fetch_task := true, metrics_task := true,
          ready_cb := { already_fired := true, delivered := 1 },
          cacheDestroyed := false } false).closed = true
    ∧ destroy (destroy
        { closed := false, run_state := RunState.INITIALIZED, cache := [],
          registrations := 1, fetch_task := true, metrics_task := true,
          ready_cb := { already_fired := true, delivered := 1 },
          cacheDestroyed := false } false) true =
      destroy
        { closed := false, run_state := RunState.INITIALIZED, cache := [],
          registrations := 1, fetch_task := true, metrics_task := true,
          ready_cb := { already_fired := true, delivered := 1 },
          cacheDestroyed := false } false
    ∧ (destroy
        { closed := false, run_state := RunState.INITIALIZED, cache := [],
          registrations := 1, fetch_task := true, metrics_task := true,
          ready_cb := { already_fired := true, delivered := 1 },
          cacheDestroyed := false } false).run_state = RunState.SHUTDOWN :=
  ⟨(C8_destroy_idempotent _ false true).1,
   (C8_destroy_idempotent _ false true).2.1,
   (C8_destroy_idempotent _ false true).2.2.1 rfl⟩

/-- C10: an `unleash-connected` event whose data is missing or empty
still sets the processor's hydrated flag — letting the connector invoke
its ready callback — while `take_state` is never called, because
`_apply_delta` returns early on a falsy payload. -/
theorem C10_empty_connected_hydrates :
    StreamingEventProcessor.process processorInit
        { event := some "unleash-connected", data := none } =
      { hydrated := true, takeStateCalls := [] }
    ∧ StreamingEventProcessor.process processorInit
        { event := some "unleash-connected", data := some "" } =
      { hydrated := true, takeStateCalls := [] }
    ∧ StreamingConnector.loop_body processorInit 0
        { event := some "unleash-connected", data := none } =
      ({ hydrated := true, takeStateCalls := [] }, 1) := by
  refine ⟨by decide, by decide, by decide⟩

end Unleash
